import Mathlib

/-!
Verification of the Account REST microservice (routes in `service/routes.py`).

The route layer is embedded directly from `service/routes.py`.  The Account
entity model (`service/models.py`) is not part of the available sources, so
its operations (`serialize`, `deserialize`, `create`, `find`, `all`,
`update`, `delete`) are modelled from the specification, sections 3 and 4.1.
Dates are represented by their ISO-8601 string renderings; JSON request
bodies are represented as records of optional fields (a missing key is
`none`); an unparseable or absent body is `none` at the outer `Option`.
-/

namespace AccountService

/-- Shape of an Account row: the four required string fields, the
system-assigned integer id, and the date joined (as its ISO-8601 string). -/
structure Account where
  id : Nat
  name : String
  email : String
  address : String
  phone_number : String
  date_joined : String
deriving DecidableEq, Repr

/-- Fields of a JSON request body for an Account: every key may be absent.
The `id` key of a body is ignored by deserialize and is not modelled. -/
structure AccountBody where
  name : Option String
  email : Option String
  address : Option String
  phone_number : Option String
  date_joined : Option String
deriving DecidableEq, Repr

/-- Serialized form of an Account: a mapping with all six fields, the
date rendered as an ISO-8601 date string (spec section 4.1, `serialize`). -/
structure SerializedAccount where
  id : Nat
  name : String
  email : String
  address : String
  phone_number : String
  date_joined : String
deriving DecidableEq, Repr

/-- Modelled from the spec (section 4.1, `serialize`; `service/models.py` is
not among the sources): returns a mapping with all six fields; total. -/
def Account.serialize (a : Account) : SerializedAccount :=
  { id := a.id
    name := a.name
    email := a.email
    address := a.address
    phone_number := a.phone_number
    date_joined := a.date_joined }

/-- Fresh in-memory Account, as built by the `Account()` constructor before
`deserialize` populates it. -/
def Account.empty : Account :=
  { id := 0
    name := ""
    email := ""
    address := ""
    phone_number := ""
    date_joined := "" }

/-- Modelled from the spec (section 4.1, `deserialize`; `service/models.py`
is not among the sources): populates the Account fields from the body,
failing with a `DataValidationError` message naming the first missing
required key, or a bad-data message when the body is not an object;
`date_joined` defaults to today when not supplied; the `id` of the input is
ignored, the Account keeps its own. Errors are the `Except.error` branch. -/
def Account.deserialize (a : Account) (body : Option AccountBody)
    (today : String) : Except String Account :=
  match body with
  | none => .error "Invalid Account: body of request contained bad or no data"
  | some b =>
    match b.name with
    | none => .error "Invalid Account: missing name"
    | some n =>
      match b.email with
      | none => .error "Invalid Account: missing email"
      | some e =>
        match b.address with
        | none => .error "Invalid Account: missing address"
        | some ad =>
          match b.phone_number with
          | none => .error "Invalid Account: missing phone_number"
          | some ph =>
            .ok { a with
                  name := n
                  email := e
                  address := ad
                  phone_number := ph
                  date_joined := b.date_joined.getD today }

/-- Modelled from the spec (sections 3, 4.1, 6; `service/models.py` is not
among the sources): the persistence store is one table of Accounts keyed by
an auto-increment integer `id`, rows kept in insertion order. -/
structure Store where
  rows : List Account
  nextId : Nat
deriving DecidableEq, Repr

/-- Modelled from the spec (section 4.1, `create`): assigns the next unique
id and inserts one row; insertion order is the order of creation. -/
def Store.create (st : Store) (a : Account) : Store × Account :=
  let created := { a with id := st.nextId }
  ({ rows := st.rows ++ [created], nextId := st.nextId + 1 }, created)

/-- Modelled from the spec (section 4.1, `find`): returns the Account with
that id, or an absence signal when not found. -/
def Store.find (st : Store) (i : Nat) : Option Account :=
  st.rows.find? (fun a => a.id == i)

/-- Modelled from the spec (section 4.1, `all`): every Account currently
stored, in insertion order, possibly empty. -/
def Store.all (st : Store) : List Account :=
  st.rows

/-- Modelled from the spec (section 4.1, `update`): persists the in-memory
field values over the existing stored row sharing the same id. -/
def Store.updateRow (st : Store) (a : Account) : Store :=
  { st with rows := st.rows.map (fun r => if r.id == a.id then a else r) }

/-- Modelled from the spec (section 4.1, `delete`): removes the row with
this id from the store. -/
def Store.deleteRow (st : Store) (i : Nat) : Store :=
  { st with rows := st.rows.filter (fun r => r.id != i) }

/-- A route response body: empty, plain error text, one serialized Account,
or a JSON array of serialized Accounts. -/
inductive ResponseBody where
  | empty : ResponseBody
  | text : String → ResponseBody
  | jsonAcc : SerializedAccount → ResponseBody
  | jsonList : List SerializedAccount → ResponseBody
deriving DecidableEq, Repr

/-- HTTP response as the routes build it: status code, body, and the
optional Location header. -/
structure HttpResponse where
  status : Nat
  body : ResponseBody
  location : Option String
deriving DecidableEq, Repr

/-- HTTP request as the routes read it: the Content-Type header (absent is
`none`) and the result of `request.get_json()` (`none` when the body is not
a JSON object). -/
structure HttpRequest where
  contentType : Option String
  body : Option AccountBody
deriving DecidableEq, Repr

/-- Translation of `check_content_type` (`service/routes.py` lines 152-161):
returns without a response when the header is present, non-empty (Python
truthiness) and equal to the media type; otherwise aborts with 415 and the
message built there. The abort surfaces as a response, per the error
boundary. -/
def check_content_type (media_type : String) (content_type : Option String) :
    Option HttpResponse :=
  match content_type with
  | some ct =>
    if ct ≠ "" && ct == media_type then
      none
    else
      some { status := 415
             body := .text ("Content-Type must be " ++ media_type)
             location := none }
  | none =>
    some { status := 415
           body := .text ("Content-Type must be " ++ media_type)
           location := none }

/-- Translation of `create_accounts` (`service/routes.py` lines 41-58),
with the `DataValidationError` boundary rendering a 400 whose body text is
the error message (spec section 4.2, modelled from the spec since the error
handlers are not among the sources). On success: create, serialize, 201
with `Location: /`. Returns the resulting store with the response. -/
def create_accounts (st : Store) (req : HttpRequest) (today : String) :
    Store × HttpResponse :=
  match check_content_type "application/json" req.contentType with
  | some resp => (st, resp)
  | none =>
    match Account.deserialize Account.empty req.body today with
    | .error msg => (st, { status := 400, body := .text msg, location := none })
    | .ok acct =>
      let res := Store.create st acct
      (res.1, { status := 201
                body := .jsonAcc (Account.serialize res.2)
                location := some "/" })

/-- Translation of `list_accounts` (`service/routes.py` lines 66-75):
fetch all accounts, serialize each, answer 200 with the JSON list. -/
def list_accounts (st : Store) : HttpResponse :=
  { status := 200
    body := .jsonList ((Store.all st).map Account.serialize)
    location := none }

/-- Translation of `get_account` (`service/routes.py` lines 82-95): find by
id; when absent abort 404 with the message naming the id in brackets;
otherwise 200 with the serialized Account. -/
def get_account (st : Store) (account_id : Nat) : HttpResponse :=
  match Store.find st account_id with
  | none =>
    { status := 404
      body := .text ("Account with id [" ++ toString account_id ++
        "] could not be found.")
      location := none }
  | some account =>
    { status := 200
      body := .jsonAcc (Account.serialize account)
      location := none }

/-- Translation of `update_account` (`service/routes.py` lines 103-122):
find by id first; when absent abort 404 (before the body is read); else
deserialize the body over the found account (400 on failure, via the same
error boundary as create), persist with `update`, answer 200 with the
serialized updated Account. -/
def update_account (st : Store) (account_id : Nat) (req : HttpRequest)
    (today : String) : Store × HttpResponse :=
  match Store.find st account_id with
  | none =>
    (st, { status := 404
           body := .text ("Account with id " ++ toString account_id ++
             " not found")
           location := none })
  | some account =>
    match Account.deserialize account req.body today with
    | .error msg => (st, { status := 400, body := .text msg, location := none })
    | .ok updated =>
      (Store.updateRow st updated,
       { status := 200
         body := .jsonAcc (Account.serialize updated)
         location := none })

/-- Translation of `delete_account` (`service/routes.py` lines 129-145):
find by id; when absent return 204 with an empty body; otherwise delete the
row and return 204 with an empty body. -/
def delete_account (st : Store) (account_id : Nat) : Store × HttpResponse :=
  match Store.find st account_id with
  | none => (st, { status := 204, body := .empty, location := none })
  | some account =>
    (Store.deleteRow st account.id,
     { status := 204, body := .empty, location := none })

/-- Sample complete request body used by witnesses. -/
def bodyEx : AccountBody :=
  { name := some "John"
    email := some "john@example.com"
    address := some "1 Main St"
    phone_number := some "555-0100"
    date_joined := some "2020-01-02" }

/-- Sample stored account used by witnesses. -/
def acctEx : Account :=
  { id := 1
    name := "John"
    email := "john@example.com"
    address := "1 Main St"
    phone_number := "555-0100"
    date_joined := "2020-01-02" }

/-- Sample store holding exactly `acctEx`, used by witnesses. -/
def stEx : Store :=
  { rows := [acctEx], nextId := 2 }

end AccountService

namespace AccountService

/-- Sample account body with a missing required field (only name given). -/
def bodyMissingEx : AccountBody :=
  { name := some "x"
    email := none
    address := none
    phone_number := none
    date_joined := none }

/-- Sample complete request body with the date omitted. -/
def bodyNoDateEx : AccountBody :=
  { bodyEx with date_joined := none }

/-- The account deserialized from `bodyEx` into a fresh Account. -/
def acctDeEx : Account :=
  { id := 0
    name := "John"
    email := "john@example.com"
    address := "1 Main St"
    phone_number := "555-0100"
    date_joined := "2020-01-02" }

/-- Helper: with a Content-Type other than exactly `application/json`
(or absent), `create_accounts` answers 415 and leaves the store unchanged,
before the body is looked at. -/
theorem create_accounts_wrong_ct (st : Store) (req : HttpRequest)
    (today : String) (h : req.contentType ≠ some "application/json") :
    create_accounts st req today =
      (st, { status := 415
             body := .text "Content-Type must be application/json"
             location := none }) := by
  unfold create_accounts check_content_type
  cases hc : req.contentType with
  | none => rfl
  | some ct =>
    have hne : ct ≠ "application/json" := by
      intro h2
      exact h (by rw [hc, h2])
    simp [hne]

end AccountService

namespace AccountService

/-- C1: every POST whose Content-Type is exactly application/json and whose
body deserializes successfully answers 201, with the serialized created
Account (the deserialized account carrying the store-assigned id) as body
and a Location header whose value is exactly the string slash. -/
theorem post_accounts_created (st : Store) (req : HttpRequest)
    (today : String) (acct : Account)
    (hct : req.contentType = some "application/json")
    (hde : Account.deserialize Account.empty req.body today = Except.ok acct) :
    (create_accounts st req today).2.status = 201 ∧
    (create_accounts st req today).2.location = some "/" ∧
    (create_accounts st req today).2.body =
      ResponseBody.jsonAcc (Account.serialize (Store.create st acct).2) := by
  unfold create_accounts check_content_type
  rw [hct, hde]
  simp

/-- Witness for C1 at a concrete empty store and a complete body. -/
theorem post_accounts_created_witness :
    (create_accounts { rows := [], nextId := 1 }
        { contentType := some "application/json", body := some bodyEx }
        "2020-01-01").2.status = 201 ∧
    (create_accounts { rows := [], nextId := 1 }
        { contentType := some "application/json", body := some bodyEx }
        "2020-01-01").2.location = some "/" ∧
    (create_accounts { rows := [], nextId := 1 }
        { contentType := some "application/json", body := some bodyEx }
        "2020-01-01").2.body =
      ResponseBody.jsonAcc
        (Account.serialize
          (Store.create { rows := [], nextId := 1 } acctDeEx).2) :=
  post_accounts_created { rows := [], nextId := 1 }
    { contentType := some "application/json", body := some bodyEx }
    "2020-01-01" acctDeEx rfl rfl

end AccountService

namespace AccountService

/-- C2: for every store state, GET on the accounts collection answers 200
with the JSON array of the serialized stored accounts, one entry per stored
account, in insertion order (creation appends at the end, so insertion
order is creation order); an empty store yields the empty array. -/
theorem get_accounts_lists_all (st : Store) :
    (list_accounts st).status = 200 ∧
    (list_accounts st).body =
      ResponseBody.jsonList ((Store.all st).map Account.serialize) ∧
    ((Store.all st).map Account.serialize).length = (Store.all st).length ∧
    (∀ a : Account,
      (Store.all (Store.create st a).1) =
        Store.all st ++ [(Store.create st a).2]) ∧
    (Store.all st = [] →
      (list_accounts st).body = ResponseBody.jsonList []) := by
  refine ⟨rfl, rfl, List.length_map _ _, fun a => rfl, fun h => ?_⟩
  simp [list_accounts, h]

/-- Witness for C2 at the concrete empty store. -/
theorem get_accounts_lists_all_witness :
    (list_accounts { rows := [], nextId := 0 }).status = 200 ∧
    (list_accounts { rows := [], nextId := 0 }).body =
      ResponseBody.jsonList [] :=
  ⟨(get_accounts_lists_all { rows := [], nextId := 0 }).1,
   (get_accounts_lists_all { rows := [], nextId := 0 }).2.2.2.2 rfl⟩

/-- C3: GET on an account id answers 200 with the serialized stored Account
when the id is found, and 404 with the message naming the id in brackets
when it is not. -/
theorem get_account_read (st : Store) (i : Nat) :
    (∀ a : Account, Store.find st i = some a →
      (get_account st i).status = 200 ∧
      (get_account st i).body = ResponseBody.jsonAcc (Account.serialize a)) ∧
    (Store.find st i = none →
      (get_account st i).status = 404 ∧
      (get_account st i).body = ResponseBody.text
        ("Account with id [" ++ toString i ++ "] could not be found.")) := by
  constructor
  · intro a ha
    simp [get_account, ha]
  · intro h
    simp [get_account, h]

/-- Witness for C3: the store holding account 1, read at ids 1 and 2. -/
theorem get_account_read_witness :
    ((get_account stEx 1).status = 200 ∧
     (get_account stEx 1).body =
       ResponseBody.jsonAcc (Account.serialize acctEx)) ∧
    ((get_account stEx 2).status = 404 ∧
     (get_account stEx 2).body = ResponseBody.text
       ("Account with id [" ++ toString 2 ++ "] could not be found.")) :=
  ⟨(get_account_read stEx 1).1 acctEx rfl, (get_account_read stEx 2).2 rfl⟩

end AccountService

namespace AccountService

/-- Helper: after a DELETE on an id, looking that id up finds nothing,
whether or not it was present before. -/
theorem find_after_delete (st : Store) (i : Nat) :
    Store.find (delete_account st i).1 i = none := by
  unfold delete_account
  cases hfind : Store.find st i with
  | none => simpa using hfind
  | some a =>
    have ha : a.id = i := by
      have hp := List.find?_some hfind
      simpa using hp
    simp only [Store.find, Store.deleteRow, List.find?_eq_none, List.mem_filter]
    intro x hx
    rcases hx with ⟨hmem, hne⟩
    simp only [bne_iff_ne, ne_eq] at hne
    simp only [beq_iff_eq]
    rw [ha] at hne
    exact hne

/-- C4: DELETE on any id answers 204 with an empty body whether or not the
id is stored; a second DELETE on the same id answers 204 again, and a GET
on the id after the first DELETE answers 404. -/
theorem delete_account_idempotent (st : Store) (i : Nat) :
    (delete_account st i).2.status = 204 ∧
    (delete_account st i).2.body = ResponseBody.empty ∧
    (delete_account (delete_account st i).1 i).2.status = 204 ∧
    (delete_account (delete_account st i).1 i).2.body = ResponseBody.empty ∧
    (get_account (delete_account st i).1 i).status = 404 := by
  have h204 : ∀ (s : Store) (j : Nat),
      (delete_account s j).2.status = 204 ∧
      (delete_account s j).2.body = ResponseBody.empty := by
    intro s j
    unfold delete_account
    cases Store.find s j <;> simp
  have hgone := find_after_delete st i
  refine ⟨(h204 st i).1, (h204 st i).2, (h204 _ i).1, (h204 _ i).2, ?_⟩
  simp [get_account, hgone]

end AccountService

namespace AccountService

/-- C5: PUT on an id with no stored account answers 404 and leaves the
store exactly as it was, for every request body. -/
theorem put_missing_id_unchanged (st : Store) (i : Nat) (req : HttpRequest)
    (today : String) (h : Store.find st i = none) :
    (update_account st i req today).2.status = 404 ∧
    (update_account st i req today).1 = st := by
  simp [update_account, h]

/-- Witness for C5 on the concrete empty store with a valid body. -/
theorem put_missing_id_unchanged_witness :
    (update_account { rows := [], nextId := 0 } 1
        { contentType := some "application/json", body := some bodyEx }
        "2020-01-01").2.status = 404 ∧
    (update_account { rows := [], nextId := 0 } 1
        { contentType := some "application/json", body := some bodyEx }
        "2020-01-01").1 = { rows := [], nextId := 0 } :=
  put_missing_id_unchanged { rows := [], nextId := 0 } 1
    { contentType := some "application/json", body := some bodyEx }
    "2020-01-01" rfl

/-- C6: POST with a Content-Type other than the exact string
application/json, or with no Content-Type at all, answers 415 and leaves
the store unchanged, whatever the body holds (the check precedes any body
parsing). -/
theorem post_wrong_media_type (st : Store) (req : HttpRequest)
    (today : String) (h : req.contentType ≠ some "application/json") :
    (create_accounts st req today).2.status = 415 ∧
    (create_accounts st req today).1 = st := by
  rw [create_accounts_wrong_ct st req today h]
  exact ⟨rfl, rfl⟩

/-- Witness for C6: a text/html POST carrying a valid JSON-shaped body. -/
theorem post_wrong_media_type_witness :
    (create_accounts stEx
        { contentType := some "text/html", body := some bodyEx }
        "2020-01-01").2.status = 415 ∧
    (create_accounts stEx
        { contentType := some "text/html", body := some bodyEx }
        "2020-01-01").1 = stEx :=
  post_wrong_media_type stEx
    { contentType := some "text/html", body := some bodyEx }
    "2020-01-01" (by decide)

end AccountService

namespace AccountService

/-- Helper: a body lacking any of the four required keys makes deserialize
fail with some DataValidationError message. -/
theorem deserialize_missing_field (a : Account) (b : AccountBody)
    (today : String)
    (hmiss : b.name = none ∨ b.email = none ∨ b.address = none ∨
      b.phone_number = none) :
    ∃ msg : String,
      Account.deserialize a (some b) today = Except.error msg := by
  cases hn : b.name with
  | none =>
    exact ⟨"Invalid Account: missing name", by
      simp [Account.deserialize, hn]⟩
  | some n =>
    cases he : b.email with
    | none =>
      exact ⟨"Invalid Account: missing email", by
        simp [Account.deserialize, hn, he]⟩
    | some e =>
      cases ha : b.address with
      | none =>
        exact ⟨"Invalid Account: missing address", by
          simp [Account.deserialize, hn, he, ha]⟩
      | some ad =>
        cases hp : b.phone_number with
        | none =>
          exact ⟨"Invalid Account: missing phone_number", by
            simp [Account.deserialize, hn, he, ha, hp]⟩
        | some ph =>
          simp [hn, he, ha, hp] at hmiss

/-- C7: POST with Content-Type application/json whose JSON body lacks a
required field answers 400 with the DataValidationError message as body
text, and the store is unchanged. -/
theorem post_missing_field_400 (st : Store) (req : HttpRequest)
    (today : String) (b : AccountBody)
    (hct : req.contentType = some "application/json")
    (hb : req.body = some b)
    (hmiss : b.name = none ∨ b.email = none ∨ b.address = none ∨
      b.phone_number = none) :
    ∃ msg : String,
      Account.deserialize Account.empty req.body today = Except.error msg ∧
      (create_accounts st req today).2.status = 400 ∧
      (create_accounts st req today).2.body = ResponseBody.text msg ∧
      (create_accounts st req today).1 = st := by
  obtain ⟨msg, hmsg⟩ := deserialize_missing_field Account.empty b today hmiss
  refine ⟨msg, by rw [hb]; exact hmsg, ?_, ?_, ?_⟩ <;>
  · unfold create_accounts check_content_type
    rw [hct, hb, hmsg]
    simp

/-- Witness for C7: a body giving only the name. -/
theorem post_missing_field_400_witness :
    ∃ msg : String,
      Account.deserialize Account.empty (some bodyMissingEx) "2020-01-01" =
        Except.error msg ∧
      (create_accounts stEx
          { contentType := some "application/json", body := some bodyMissingEx }
          "2020-01-01").2.status = 400 ∧
      (create_accounts stEx
          { contentType := some "application/json", body := some bodyMissingEx }
          "2020-01-01").2.body = ResponseBody.text msg ∧
      (create_accounts stEx
          { contentType := some "application/json", body := some bodyMissingEx }
          "2020-01-01").1 = stEx :=
  post_missing_field_400 stEx
    { contentType := some "application/json", body := some bodyMissingEx }
    "2020-01-01" bodyMissingEx rfl rfl (Or.inr (Or.inl rfl))

end AccountService

namespace AccountService

/-- C8 counterexample: a PUT carrying Content-Type text/html to an id with
no stored account answers 404, not 415 — the PUT route never checks the
Content-Type header, so the claim that every write with a wrong header
answers 415 is false. -/
theorem put_wrong_media_type_404 :
    (update_account { rows := [], nextId := 1 } 1
        { contentType := some "text/html", body := some bodyEx }
        "2020-01-01").2.status = 404 ∧
    (update_account { rows := [], nextId := 1 } 1
        { contentType := some "text/html", body := some bodyEx }
        "2020-01-01").2.status ≠ 415 := by
  constructor
  · rfl
  · decide

/-- C8 amended: only the POST route checks the Content-Type header (415
before body parsing, store unchanged); the PUT route performs no such
check, so a PUT to a missing id answers 404 whatever the header is. -/
theorem write_media_type_check_post_only (st : Store) (req : HttpRequest)
    (today : String) (i : Nat)
    (hct : req.contentType ≠ some "application/json")
    (hfind : Store.find st i = none) :
    (create_accounts st req today).2.status = 415 ∧
    (create_accounts st req today).1 = st ∧
    (update_account st i req today).2.status = 404 := by
  rw [create_accounts_wrong_ct st req today hct]
  refine ⟨rfl, rfl, ?_⟩
  simp [update_account, hfind]

/-- Witness for the amended C8 at a concrete request and empty store. -/
theorem write_media_type_check_post_only_witness :
    (create_accounts { rows := [], nextId := 1 }
        { contentType := some "text/html", body := some bodyEx }
        "2020-01-01").2.status = 415 ∧
    (create_accounts { rows := [], nextId := 1 }
        { contentType := some "text/html", body := some bodyEx }
        "2020-01-01").1 = { rows := [], nextId := 1 } ∧
    (update_account { rows := [], nextId := 1 } 1
        { contentType := some "text/html", body := some bodyEx }
        "2020-01-01").2.status = 404 :=
  write_media_type_check_post_only { rows := [], nextId := 1 }
    { contentType := some "text/html", body := some bodyEx }
    "2020-01-01" 1 (by decide) rfl

/-- C9: deserializing a body holding the four required string fields into
any Account succeeds, and serializing the result gives back the four input
strings, with date_joined equal to the supplied value or to today when the
body omitted it. -/
theorem deserialize_serialize_round_trip (a : Account) (b : AccountBody)
    (today : String) (n e ad ph : String)
    (hn : b.name = some n) (he : b.email = some e)
    (ha : b.address = some ad) (hp : b.phone_number = some ph) :
    ∃ a2 : Account,
      Account.deserialize a (some b) today = Except.ok a2 ∧
      (Account.serialize a2).name = n ∧
      (Account.serialize a2).email = e ∧
      (Account.serialize a2).address = ad ∧
      (Account.serialize a2).phone_number = ph ∧
      (Account.serialize a2).date_joined = b.date_joined.getD today := by
  refine ⟨{ a with
            name := n
            email := e
            address := ad
            phone_number := ph
            date_joined := b.date_joined.getD today },
    ?_, rfl, rfl, rfl, rfl, rfl⟩
  simp [Account.deserialize, hn, he, ha, hp]

/-- Witness for C9: one body supplying the date and one omitting it. -/
theorem deserialize_serialize_round_trip_witness :
    (∃ a2 : Account,
      Account.deserialize Account.empty (some bodyEx) "2020-01-01" =
        Except.ok a2 ∧
      (Account.serialize a2).name = "John" ∧
      (Account.serialize a2).email = "john@example.com" ∧
      (Account.serialize a2).address = "1 Main St" ∧
      (Account.serialize a2).phone_number = "555-0100" ∧
      (Account.serialize a2).date_joined =
        bodyEx.date_joined.getD "2020-01-01") ∧
    (∃ a2 : Account,
      Account.deserialize Account.empty (some bodyNoDateEx) "2020-01-01" =
        Except.ok a2 ∧
      (Account.serialize a2).name = "John" ∧
      (Account.serialize a2).email = "john@example.com" ∧
      (Account.serialize a2).address = "1 Main St" ∧
      (Account.serialize a2).phone_number = "555-0100" ∧
      (Account.serialize a2).date_joined =
        bodyNoDateEx.date_joined.getD "2020-01-01") :=
  ⟨deserialize_serialize_round_trip Account.empty bodyEx "2020-01-01"
      "John" "john@example.com" "1 Main St" "555-0100" rfl rfl rfl rfl,
   deserialize_serialize_round_trip Account.empty bodyNoDateEx "2020-01-01"
      "John" "john@example.com" "1 Main St" "555-0100" rfl rfl rfl rfl⟩

/-- C10: PUT on an id with no stored account answers 404 for every request
body — the existence check precedes any reading of the body, so even a
malformed body never turns this into a 400. -/
theorem put_missing_id_404_any_body (st : Store) (i : Nat)
    (req : HttpRequest) (today : String) (h : Store.find st i = none) :
    (update_account st i req today).2.status = 404 ∧
    (update_account st i req today).2.status ≠ 400 := by
  simp [update_account, h]

/-- Witness for C10: a PUT whose body is not a JSON object, on an empty
store, still answers 404. -/
theorem put_missing_id_404_any_body_witness :
    (update_account { rows := [], nextId := 0 } 7
        { contentType := some "application/json", body := none }
        "2020-01-01").2.status = 404 ∧
    (update_account { rows := [], nextId := 0 } 7
        { contentType := some "application/json", body := none }
        "2020-01-01").2.status ≠ 400 :=
  put_missing_id_404_any_body { rows := [], nextId := 0 } 7
    { contentType := some "application/json", body := none }
    "2020-01-01" rfl

end AccountService
